import Mathlib

/-!
Verification of the post-processing and recommendation core of the
Agri-Crop-Yield-Prediction Flask application (src/app.py).

The embedding models Python values occurring in a JSON request body as
an inductive type, request dictionaries as association lists, and the
pure numeric pipeline (failure check, yield and expense correction,
crop-name resolution, suggestion ranking, and the orchestrating
request handler) as Lean functions over the rationals.  Fallible
Python operations (dictionary bracket access, list indexing) are
modelled with Option: a none result models an uncaught Python
exception reaching the surrounding try/except boundary.  Floating
point arithmetic is modelled by exact rational arithmetic; string
lowering and trimming are modelled by the ASCII String.toLower and
String.trim, which agree with Python on the ASCII crop labels and keys
this application uses.  The three opaque ML predictors are passed in
as explicit parameters (a raw crop label and two raw rational
predictions), since the specification treats them as external
collaborators.
-/

open scoped List

/-- A Python value as it can occur in the JSON request mapping:
None, a number (modelled as an exact rational), or a string. -/
inductive PyVal where
  | pynone : PyVal
  | num : ℚ → PyVal
  | str : String → PyVal
deriving DecidableEq

/-- A Python dict with string keys, modelled as an association list. -/
def PyDict := List (String × PyVal)

instance : DecidableEq PyDict := by
  unfold PyDict
  infer_instance

/-- Python bracket access data[k]: none models a KeyError. -/
def pyLookup (d : PyDict) (k : String) : Option PyVal :=
  List.lookup k d

/-- Python data.get(k): returns None instead of raising when absent. -/
def pyGet (d : PyDict) (k : String) : PyVal :=
  (pyLookup d k).getD .pynone

/-- Python truthiness of a value, as used by the or operator:
None is falsy, a number is truthy iff nonzero, a string iff nonempty. -/
def truthy : PyVal → Bool
  | .pynone => false
  | .num q => decide (q ≠ 0)
  | .str s => decide (s ≠ "")

/-- Python x or y: x when truthy, else y. -/
def pyOr (a b : PyVal) : PyVal :=
  if truthy a then a else b

/-- Python dict assignment data[k] = v (observed only through lookup). -/
def dictSet (d : PyDict) (k : String) (v : PyVal) : PyDict :=
  (k, v) :: d.eraseP (fun p => p.1 == k)

/-- Python str.lower(), on the ASCII labels this application uses. -/
def pyLower (s : String) : String :=
  ⟨s.toList.map Char.toLower⟩

/-- Whitespace characters stripped by Python str.strip(). -/
def isPySpace (c : Char) : Bool :=
  c == ' ' || c == '\t' || c == '\n' || c == '\r'

/-- Python str.strip(): drop whitespace from both ends. -/
def pyStrip (s : String) : String :=
  ⟨((s.toList.dropWhile isPySpace).reverse.dropWhile isPySpace).reverse⟩

/-- Numeric value of a decimal digit character. -/
def digitVal (c : Char) : ℕ :=
  c.toNat - 48

/-- Value of a digit string read as a natural number in base 10. -/
def digitsVal (cs : List Char) : ℕ :=
  cs.foldl (fun a c => 10 * a + digitVal c) 0

/-- Parse an unsigned decimal literal: digits, optionally with a single
dot and a fractional digit run; at least one digit overall (Python
float accepts forms like 12, 12., .5, 1.25). -/
def parseUnsigned (cs : List Char) : Option ℚ :=
  let int := cs.takeWhile (·.isDigit)
  let rest := cs.dropWhile (·.isDigit)
  match rest with
  | [] => if int.isEmpty then none else some (digitsVal int : ℚ)
  | '.' :: frac =>
      if frac.all (·.isDigit) && !(int.isEmpty && frac.isEmpty) then
        some ((digitsVal int : ℚ) + (digitsVal frac : ℚ) / (10 : ℚ) ^ frac.length)
      else none
  | _ => none

/-- Model of Python float(s) on a string: strip surrounding whitespace,
allow an optional sign, then an unsigned decimal literal.  (Exponent
and inf/nan forms are not modelled; none of the claims depend on
them.)  none models a ValueError. -/
def parseFloat (s : String) : Option ℚ :=
  match (pyStrip s).toList with
  | '+' :: cs => parseUnsigned cs
  | '-' :: cs => (parseUnsigned cs).map Neg.neg
  | cs => parseUnsigned cs

/-- src/app.py to_float: float(x) with any failure replaced by 0.0.
float(None) raises a TypeError, an unparsable string a ValueError;
both are caught by the bare except and become 0.0. -/
def to_float (v : PyVal) : ℚ :=
  match v with
  | .num q => q
  | .str s => (parseFloat s).getD 0
  | .pynone => 0

/-- The canonical numeric feature record built by the request handler. -/
structure FeatureRecord where
  N : ℚ
  P : ℚ
  K : ℚ
  temperature : ℚ
  humidity : ℚ
  ph : ℚ
  rainfall : ℚ
deriving DecidableEq

/-- A request dictionary holding exactly the seven numeric features. -/
def featureDict (r : FeatureRecord) : PyDict :=
  [("N", .num r.N), ("P", .num r.P), ("K", .num r.K),
   ("temperature", .num r.temperature), ("humidity", .num r.humidity),
   ("ph", .num r.ph), ("rainfall", .num r.rainfall)]

/-- The extremity counter of src/app.py check_crop_failure, as a
function of the coerced feature values. -/
def extremeCountVals (temp ph rain n p k : ℚ) : ℕ :=
  let extreme : ℕ := 0
  let extreme := if 45 < temp then extreme + 1 else extreme
  let extreme := if rain < 20 then extreme + 1 else extreme
  let extreme := if ph < 5 then extreme + 1 else extreme
  let extreme := if n < 20 then extreme + 1 else extreme
  let extreme := if p < 15 then extreme + 1 else extreme
  let extreme := if k < 15 then extreme + 1 else extreme
  extreme

/-- src/app.py check_crop_failure: count extremity conditions and
signal failure when at least two hold.  Bracket access on the request
dictionary can raise a KeyError, hence the Option result. -/
def check_crop_failure (data : PyDict) : Option Bool := do
  let temp := to_float (← pyLookup data "temperature")
  let ph := to_float (← pyLookup data "ph")
  let rain := to_float (← pyLookup data "rainfall")
  let n := to_float (← pyLookup data "N")
  let p := to_float (← pyLookup data "P")
  let k := to_float (← pyLookup data "K")
  pure (decide (2 ≤ extremeCountVals temp ph rain n p k))

/-- The compounded yield-correction multiplier of
src/app.py apply_yield_correction, as a function of the coerced
feature values. -/
def yieldCorrFactor (temp ph rain humidity n p k : ℚ) : ℚ :=
  let corr : ℚ := 1
  let corr := if 45 < temp then corr * (30 / 100)
    else if 38 < temp then corr * (55 / 100) else corr
  let corr := if rain < 20 then corr * (40 / 100)
    else if rain < 40 then corr * (65 / 100) else corr
  let corr := if ph < 5 ∨ 8 < ph then corr * (50 / 100) else corr
  let corr := if n < 40 then corr * (60 / 100) else corr
  let corr := if p < 30 then corr * (70 / 100) else corr
  let corr := if k < 30 then corr * (60 / 100) else corr
  let corr := if 85 < humidity then corr * (80 / 100) else corr
  corr

/-- src/app.py apply_yield_correction: coerce the features out of the
request dictionary (bracket access, hence Option) and scale the raw
prediction by the compounded multiplier. -/
def apply_yield_correction (raw_yield : ℚ) (data : PyDict) : Option ℚ := do
  let temp := to_float (← pyLookup data "temperature")
  let ph := to_float (← pyLookup data "ph")
  let rain := to_float (← pyLookup data "rainfall")
  let humidity := to_float (← pyLookup data "humidity")
  let n := to_float (← pyLookup data "N")
  let p := to_float (← pyLookup data "P")
  let k := to_float (← pyLookup data "K")
  pure (raw_yield * yieldCorrFactor temp ph rain humidity n p k)

/-- The compounded expense-correction multiplier of
src/app.py apply_expense_correction. -/
def expenseCorrFactor (temp rain humidity : ℚ) : ℚ :=
  let corr : ℚ := 1
  let corr := if 40 < temp then corr * (120 / 100) else corr
  let corr := if rain < 20 then corr * (130 / 100) else corr
  let corr := if 90 < humidity then corr * (115 / 100) else corr
  corr

/-- src/app.py apply_expense_correction. -/
def apply_expense_correction (expense : ℚ) (data : PyDict) : Option ℚ := do
  let temp := to_float (← pyLookup data "temperature")
  let rain := to_float (← pyLookup data "rainfall")
  let humidity := to_float (← pyLookup data "humidity")
  pure (expense * expenseCorrFactor temp rain humidity)

/-- src/app.py adjust_to_valid_crop: lowercase and strip the predicted
label; return it when it is a catalog member, else the first catalog
entry containing its first three characters as a substring, else the
first catalog entry.  valid_list[0] raises an IndexError on an empty
catalog, modelled by head? returning none. -/
def adjust_to_valid_crop (pred_crop : String) (valid_list : List String) : Option String :=
  let p := pyStrip (pyLower pred_crop)
  if p ∈ valid_list then some p
  else
    match valid_list.find? (fun v => decide (p.toList.take 3 <:+: v.toList)) with
    | some v => some v
    | none => valid_list.head?

/-- src/app.py CROP_FACTOR: the fixed per-crop yield factor table. -/
def CROP_FACTOR : List (String × ℚ) :=
  [("rice", 78 / 100), ("wheat", 74 / 100), ("maize", 72 / 100),
   ("banana", 70 / 100), ("barley", 69 / 100), ("blackgram", 68 / 100),
   ("brinjal", 71 / 100), ("sesame", 67 / 100), ("chickpea", 73 / 100),
   ("onion", 66 / 100), ("chilli", 65 / 100), ("cauliflower", 70 / 100),
   ("pigeonpeas", 74 / 100), ("potato", 76 / 100), ("sorghum", 69 / 100),
   ("sugarcane", 64 / 100)]

/-- CROP_FACTOR.get(crop, 0.75). -/
def cropFactor (crop : String) : ℚ :=
  (CROP_FACTOR.lookup crop).getD (75 / 100)

/-- One candidate row built by the suggestion loop. -/
structure Suggestion where
  Crop : String
  Yield : ℚ
  Profit : ℚ
deriving DecidableEq

/-- The flat linear expense model used inside suggest_best_crops:
fertilizer * 40 + pesticide * 120 + seed + other, read with dict.get. -/
def fixed_expense (data : PyDict) : ℚ :=
  to_float (pyGet data "fertilizer") * 40 +
  to_float (pyGet data "pesticide") * 120 +
  to_float (pyGet data "seed") +
  to_float (pyGet data "other")

/-- The body of the suggestion loop for one catalog crop. -/
def mkSuggestion (data : PyDict) (user_price base_yield : ℚ) (crop : String) : Suggestion :=
  let factor := cropFactor crop
  let approx_yield := base_yield * factor
  let revenue := approx_yield * user_price
  { Crop := crop, Yield := approx_yield, Profit := revenue - fixed_expense data }

/-- The comparison realising Python sorted(key profit, reverse true):
a may stay before b exactly when b's profit does not exceed a's. -/
def profitGE (a b : Suggestion) : Bool :=
  decide (b.Profit ≤ a.Profit)

/-- src/app.py suggest_best_crops: build one candidate per catalog
crop, sort by profit descending (stable), keep the strictly
profitable ones, and return the first three (empty when none). -/
def suggest_best_crops (data : PyDict) (user_price base_yield : ℚ)
    (all_crops : List String) : List Suggestion :=
  let suggestions := all_crops.map (mkSuggestion data user_price base_yield)
  let sorted := suggestions.mergeSort profitGE
  let profitable := sorted.filter (fun c => decide (0 < c.Profit))
  if profitable.isEmpty then [] else profitable.take 3

/-- The structured result of the prediction route (numeric fields kept
as exact rationals; the route merely renders them to two decimals). -/
structure PredResult where
  Predicted_Crop : String
  Predicted_Yield : ℚ
  Total_Expense : ℚ
  Predicted_Revenue : ℚ
  Profit : ℚ
  Loss : ℚ
  Best_Crops : List Suggestion
  show_suggestions : Bool
deriving DecidableEq

/-- The cost-key normalisation block at the top of api_predict_all:
each of the four cost fields is rewritten to the float of the short
key's value or-else the verbose key's value, then the dead seed
repair branch is applied. -/
def normalize_costs (data : PyDict) : PyDict :=
  let d1 := dictSet data "fertilizer"
    (.num (to_float (pyOr (pyGet data "fertilizer") (pyGet data "Fertilizer_Usage_kg_per_hectare"))))
  let d2 := dictSet d1 "pesticide"
    (.num (to_float (pyOr (pyGet d1 "pesticide") (pyGet d1 "Pesticide_Usage_litre_per_hectare"))))
  let d3 := dictSet d2 "seed"
    (.num (to_float (pyOr (pyGet d2 "seed") (pyGet d2 "Seed_Expense_per_hectare(INR)"))))
  let d4 := dictSet d3 "other"
    (.num (to_float (pyOr (pyGet d3 "other") (pyGet d3 "Other_Expense(INR)"))))
  if (pyLookup d4 "seed").isNone ∨ pyGet d4 "seed" = .str "" ∨ pyGet d4 "seed" = .pynone
  then dictSet d4 "seed" (.num 0) else d4

/-- The seven-feature ML input row of api_predict_all, built with
bracket access (KeyError on a missing feature key, hence Option). -/
def buildX (data : PyDict) : Option FeatureRecord := do
  let n ← pyLookup data "N"
  let p ← pyLookup data "P"
  let k ← pyLookup data "K"
  let temp ← pyLookup data "temperature"
  let hum ← pyLookup data "humidity"
  let ph ← pyLookup data "ph"
  let rain ← pyLookup data "rainfall"
  pure { N := to_float n, P := to_float p, K := to_float k,
         temperature := to_float temp, humidity := to_float hum,
         ph := to_float ph, rainfall := to_float rain }

/-- src/app.py api_predict_all, with the three opaque ML predictions
passed in: the decoded raw crop label, the raw yield and the raw
expense.  none models an exception reaching the route's try/except
(which answers with a generic error response). -/
def api_predict_all (data0 : PyDict) (crop_raw : String) (raw_yield raw_exp : ℚ)
    (all_crops : List String) : Option PredResult := do
  let data := normalize_costs data0
  let _X ← buildX data
  let cropLabel := pyLower crop_raw
  let fail ← check_crop_failure data
  let crop_final ← if fail then pure "Crop Failure" else adjust_to_valid_crop cropLabel all_crops
  let predicted_yield ← if fail then pure (1 : ℚ) else apply_yield_correction raw_yield data
  let predicted_expense ← apply_expense_correction raw_exp data
  let priceV ← pyLookup data "market_price"
  let price := to_float priceV
  let revenue := predicted_yield * price
  let profit := max (revenue - predicted_expense) 0
  let loss := max (predicted_expense - revenue) 0
  let best := if 0 < profit then suggest_best_crops data price predicted_yield all_crops else []
  pure { Predicted_Crop := crop_final, Predicted_Yield := predicted_yield,
         Total_Expense := predicted_expense, Predicted_Revenue := revenue,
         Profit := profit, Loss := loss, Best_Crops := best,
         show_suggestions := decide (0 < profit) }

/-- The six extremity conditions named in the specification, recorded
as a list of Booleans for counting. -/
def extremeFlags (r : FeatureRecord) : List Bool :=
  [decide (45 < r.temperature), decide (r.rainfall < 20), decide (r.ph < 5),
   decide (r.N < 20), decide (r.P < 15), decide (r.K < 15)]

/-- C1: for every feature record, check_crop_failure returns true if
and only if at least 2 of the 6 conditions (temperature above 45,
rainfall below 20, pH below 5, N below 20, P below 15, K below 15)
hold; with 0 or 1 of them holding it returns false. -/
theorem check_crop_failure_iff_two_extremes (r : FeatureRecord) :
    check_crop_failure (featureDict r)
      = some (decide (2 ≤ (extremeFlags r).count true)) := by
  have hred : check_crop_failure (featureDict r)
      = some (decide (2 ≤ extremeCountVals r.temperature r.ph r.rainfall r.N r.P r.K)) := rfl
  rw [hred]
  by_cases h1 : 45 < r.temperature <;>
    by_cases h2 : r.rainfall < 20 <;>
      by_cases h3 : r.ph < 5 <;>
        by_cases h4 : r.N < 20 <;>
          by_cases h5 : r.P < 15 <;>
            by_cases h6 : r.K < 15 <;>
              simp [extremeCountVals, extremeFlags, h1, h2, h3, h4, h5, h6, List.count_cons]

set_option maxHeartbeats 2000000 in
/-- The yield-correction multiplier always lies in the interval (0, 1]. -/
theorem yieldCorrFactor_pos_le_one (temp ph rain humidity n p k : ℚ) :
    0 < yieldCorrFactor temp ph rain humidity n p k ∧
    yieldCorrFactor temp ph rain humidity n p k ≤ 1 := by
  unfold yieldCorrFactor
  split_ifs <;> norm_num

/-- The expense-correction multiplier is always at least 1. -/
theorem expenseCorrFactor_ge_one (temp rain humidity : ℚ) :
    1 ≤ expenseCorrFactor temp rain humidity := by
  unfold expenseCorrFactor
  split_ifs <;> norm_num

/-- C4 counterexample: on the all-zero feature record the compounded
yield multiplier is 63/1250, so a negative raw prediction of -1 is
corrected to -63/1250, which is strictly greater than the raw input,
refuting the claim for arbitrary (negative) raw predictions. -/
theorem yield_correction_not_le_raw_cex :
    apply_yield_correction (-1) (featureDict ⟨0, 0, 0, 0, 0, 0, 0⟩)
      = some (-(63 / 1250 : ℚ)) ∧
    ¬ (-(63 / 1250 : ℚ) ≤ (-1 : ℚ)) := by
  constructor
  · have h : apply_yield_correction (-1) (featureDict ⟨0, 0, 0, 0, 0, 0, 0⟩)
        = some ((-1 : ℚ) * yieldCorrFactor 0 0 0 0 0 0 0) := rfl
    rw [h]
    norm_num [yieldCorrFactor]
  · norm_num

/-- C4 amended: for every feature record and every nonnegative raw
prediction, the yield correction multiplies by a factor in (0, 1] and
hence does not exceed the raw yield, and the expense correction
multiplies by a factor at least 1 and hence is at least the raw
expense. -/
theorem correction_monotone (r : FeatureRecord) (raw_yield raw_exp : ℚ)
    (hy : 0 ≤ raw_yield) (he : 0 ≤ raw_exp) :
    ∃ my me : ℚ,
      apply_yield_correction raw_yield (featureDict r) = some (raw_yield * my) ∧
      apply_expense_correction raw_exp (featureDict r) = some (raw_exp * me) ∧
      0 < my ∧ my ≤ 1 ∧ 1 ≤ me ∧
      raw_yield * my ≤ raw_yield ∧ raw_exp ≤ raw_exp * me := by
  obtain ⟨hpos, hle⟩ := yieldCorrFactor_pos_le_one r.temperature r.ph r.rainfall r.humidity r.N r.P r.K
  have hme := expenseCorrFactor_ge_one r.temperature r.rainfall r.humidity
  refine ⟨yieldCorrFactor r.temperature r.ph r.rainfall r.humidity r.N r.P r.K,
    expenseCorrFactor r.temperature r.rainfall r.humidity, rfl, rfl, hpos, hle, hme, ?_, ?_⟩
  · exact mul_le_of_le_one_right hy hle
  · exact le_mul_of_one_le_right he hme

/-- Witness for correction_monotone at the all-zero record with raw
predictions 100. -/
theorem correction_monotone_witness :
    ∃ my me : ℚ,
      apply_yield_correction 100 (featureDict ⟨0, 0, 0, 0, 0, 0, 0⟩) = some (100 * my) ∧
      apply_expense_correction 100 (featureDict ⟨0, 0, 0, 0, 0, 0, 0⟩) = some (100 * me) ∧
      0 < my ∧ my ≤ 1 ∧ 1 ≤ me ∧
      (100 : ℚ) * my ≤ 100 ∧ (100 : ℚ) ≤ 100 * me :=
  correction_monotone ⟨0, 0, 0, 0, 0, 0, 0⟩ 100 100 (by norm_num) (by norm_num)

/-- C5: for every string input and every non-empty catalog,
adjust_to_valid_crop terminates without error with a catalog member:
the lowercased, trimmed input when that is an exact member, otherwise
the first catalog entry containing the normalised input's first three
characters as a substring, otherwise the catalog's first entry. -/
theorem adjust_to_valid_crop_spec (x : String) (cat : List String) (hne : cat ≠ []) :
    ∃ r, adjust_to_valid_crop x cat = some r ∧ r ∈ cat ∧
      (pyStrip (pyLower x) ∈ cat → r = pyStrip (pyLower x)) ∧
      (pyStrip (pyLower x) ∉ cat →
        (∃ v ∈ cat, (pyStrip (pyLower x)).toList.take 3 <:+: v.toList) →
        ((pyStrip (pyLower x)).toList.take 3 <:+: r.toList) ∧
        ∃ l1 l2, cat = l1 ++ r :: l2 ∧
          ∀ v ∈ l1, ¬ ((pyStrip (pyLower x)).toList.take 3 <:+: v.toList)) ∧
      ((∀ v ∈ cat, ¬ ((pyStrip (pyLower x)).toList.take 3 <:+: v.toList)) → r = cat.headD "") := by
  by_cases hmem : pyStrip (pyLower x) ∈ cat
  · refine ⟨pyStrip (pyLower x), ?_, hmem, fun _ => rfl, fun hnot _ => absurd hmem hnot, fun hall => ?_⟩
    · simp [adjust_to_valid_crop, hmem]
    · exact absurd ((List.take_prefix 3 (pyStrip (pyLower x)).toList).isInfix) (hall _ hmem)
  · rcases hfind : cat.find?
        (fun v => decide ((pyStrip (pyLower x)).toList.take 3 <:+: v.toList)) with _ | v
    · obtain ⟨a, t, rfl⟩ := List.exists_cons_of_ne_nil hne
      refine ⟨a, ?_, List.mem_cons_self a t, fun hmem' => absurd hmem' hmem, fun _ hex => ?_, fun _ => rfl⟩
      · have hfind2 : List.find?
            (fun v => decide (List.take 3 (pyStrip (pyLower x)).data <:+: v.data)) (a :: t) = none := hfind
        simp [adjust_to_valid_crop, hmem, hfind2]
      · rw [List.find?_eq_none] at hfind
        obtain ⟨v, hv, hsub⟩ := hex
        exact absurd (decide_eq_true hsub) (hfind v hv)
    · have hmemv := List.mem_of_find?_eq_some hfind
      rw [List.find?_eq_some] at hfind
      obtain ⟨hpv, l1, l2, hcat, hprev⟩ := hfind
      refine ⟨v, ?_, hmemv, fun hmem' => absurd hmem' hmem, fun _ _ => ?_, fun hall => ?_⟩
      · have hfind' : List.find?
            (fun v => decide (List.take 3 (pyStrip (pyLower x)).data <:+: v.data)) cat = some v := by
          rw [List.find?_eq_some]
          exact ⟨hpv, l1, l2, hcat, by simpa using hprev⟩
        simp [adjust_to_valid_crop, hmem, hfind']
      · refine ⟨of_decide_eq_true hpv, l1, l2, hcat, fun w hw => ?_⟩
        have := hprev w hw
        simpa using this
      · exact absurd (of_decide_eq_true hpv) (hall v hmemv)

/-- Witness for adjust_to_valid_crop_spec on the label Maize and the
catalog containing maize and rice. -/
theorem adjust_to_valid_crop_spec_witness :
    ∃ r, adjust_to_valid_crop "Maize" ["maize", "rice"] = some r ∧ r ∈ ["maize", "rice"] := by
  obtain ⟨r, h1, h2, -⟩ := adjust_to_valid_crop_spec "Maize" ["maize", "rice"] (by decide)
  exact ⟨r, h1, h2⟩

/-- The profit comparison is transitive. -/
theorem profitGE_trans : ∀ a b c : Suggestion, profitGE a b → profitGE b c → profitGE a c := by
  intro a b c hab hbc
  simp only [profitGE, decide_eq_true_eq] at *
  exact le_trans hbc hab

/-- The profit comparison is total. -/
theorem profitGE_total : ∀ a b : Suggestion, profitGE a b || profitGE b a := by
  intro a b
  simp only [profitGE, Bool.or_eq_true, decide_eq_true_eq]
  exact le_total b.Profit a.Profit

/-- The branch on emptiness in suggest_best_crops collapses: the result
is always the first three strictly profitable entries of the stable
descending sort of the candidate list. -/
theorem suggest_best_crops_eq (data : PyDict) (price By : ℚ) (cat : List String) :
    suggest_best_crops data price By cat =
      (((cat.map (mkSuggestion data price By)).mergeSort profitGE).filter
        (fun c => decide (0 < c.Profit))).take 3 := by
  simp only [suggest_best_crops]
  split_ifs with h
  · rw [List.isEmpty_iff] at h
    rw [h]
    rfl
  · rfl

/-- Taking a prefix of a duplicate-free list preserves a two-element
sublist whose second element survives the truncation. -/
theorem pair_sublist_take {α : Type} (a b : α) :
    ∀ (l : List α) (n : ℕ), l.Nodup → [a, b] <+ l → b ∈ l.take n → [a, b] <+ l.take n := by
  intro l
  induction l with
  | nil => intro n _ hsub _; exact absurd hsub (by simp)
  | cons x xs ih =>
    intro n hnd hsub hbmem
    obtain ⟨hx, hnd'⟩ := List.nodup_cons.mp hnd
    cases n with
    | zero => simp at hbmem
    | succ m =>
      rw [List.take_succ_cons] at hbmem ⊢
      cases hsub with
      | cons _ h =>
        rcases List.mem_cons.mp hbmem with hbx | hb
        · subst hbx
          exact absurd (h.subset (by simp)) hx
        · exact (ih m hnd' h hb).cons x
      | cons₂ _ h =>
        rcases List.mem_cons.mp hbmem with hbx | hb
        · subst hbx
          exact absurd (List.singleton_sublist.mp h) hx
        · exact (List.singleton_sublist.mpr hb).cons₂ a

/-- Building a suggestion row is injective in the crop name. -/
theorem mkSuggestion_injective (data : PyDict) (price By : ℚ) :
    Function.Injective (mkSuggestion data price By) := by
  intro c1 c2 h
  have := congrArg Suggestion.Crop h
  simpa [mkSuggestion] using this

/-- C3: the suggestion list has length at most 3, contains only
entries with strictly positive profit, is sorted by profit in
non-increasing order, and (over a duplicate-free catalog) ties in
profit preserve the catalog iteration order: if a precedes b among the
candidates with equal profit and b made the output, then a precedes b
in the output as well. -/
theorem suggest_best_crops_spec (data : PyDict) (price By : ℚ) (cat : List String) :
    (suggest_best_crops data price By cat).length ≤ 3 ∧
    (∀ e ∈ suggest_best_crops data price By cat, 0 < e.Profit) ∧
    (suggest_best_crops data price By cat).Pairwise (fun a b => b.Profit ≤ a.Profit) ∧
    (cat.Nodup → ∀ a b : Suggestion, a.Profit = b.Profit →
      [a, b] <+ cat.map (mkSuggestion data price By) →
      b ∈ suggest_best_crops data price By cat →
      [a, b] <+ suggest_best_crops data price By cat) := by
  have heq := suggest_best_crops_eq data price By cat
  have hmemP : ∀ e ∈ suggest_best_crops data price By cat, 0 < e.Profit := by
    intro e he
    rw [heq] at he
    have he' := (List.take_sublist 3 _).subset he
    exact of_decide_eq_true (List.mem_filter.mp he').2
  refine ⟨?_, hmemP, ?_, ?_⟩
  · rw [heq, List.length_take]
    exact min_le_left _ _
  · have hs := List.sorted_mergeSort profitGE_trans profitGE_total
      (cat.map (mkSuggestion data price By))
    have hs' : ((cat.map (mkSuggestion data price By)).mergeSort profitGE).Pairwise
        (fun a b => b.Profit ≤ a.Profit) :=
      hs.imp (fun hab => of_decide_eq_true hab)
    rw [heq]
    exact List.Pairwise.sublist ((List.take_sublist 3 _).trans (List.filter_sublist _)) hs'
  · intro hnd a b hPeq hsub hbmem
    have hcands_nd : (cat.map (mkSuggestion data price By)).Nodup :=
      hnd.map (mkSuggestion_injective data price By)
    have hsorted_nd : ((cat.map (mkSuggestion data price By)).mergeSort profitGE).Nodup :=
      (List.mergeSort_perm (cat.map (mkSuggestion data price By)) profitGE).symm.nodup hcands_nd
    have hprof_nd : (((cat.map (mkSuggestion data price By)).mergeSort profitGE).filter
        (fun c => decide (0 < c.Profit))).Nodup := hsorted_nd.filter _
    have hbp : 0 < b.Profit := hmemP b hbmem
    have hap : 0 < a.Profit := hPeq ▸ hbp
    have hab : profitGE a b = true := decide_eq_true (le_of_eq hPeq.symm)
    have h1 : [a, b] <+ (cat.map (mkSuggestion data price By)).mergeSort profitGE :=
      List.pair_sublist_mergeSort profitGE_trans profitGE_total hab hsub
    have h2 : [a, b] <+ ((cat.map (mkSuggestion data price By)).mergeSort profitGE).filter
        (fun c => decide (0 < c.Profit)) := by
      have h3 := h1.filter (fun c => decide (0 < c.Profit))
      simpa [List.filter, decide_eq_true hap, decide_eq_true hbp] using h3
    rw [heq] at hbmem ⊢
    exact pair_sublist_take a b _ 3 hprof_nd h2 hbmem

/-- Witness for suggest_best_crops_spec: two unlisted crops tie at
factor 0.75 and both appear in catalog order in the output. -/
theorem suggest_best_crops_spec_witness :
    List.Sublist [mkSuggestion [] 1 1 "mango", mkSuggestion [] 1 1 "apple"]
      (suggest_best_crops [] 1 1 ["mango", "apple"]) := by
  have hPeq : (mkSuggestion [] 1 1 "mango").Profit = (mkSuggestion [] 1 1 "apple").Profit := rfl
  have hap : 0 < (mkSuggestion [] 1 1 "mango").Profit := by
    have h : (mkSuggestion [] 1 1 "mango").Profit
        = 1 * (75 / 100 : ℚ) * 1 - (0 * 40 + 0 * 120 + 0 + 0) := rfl
    rw [h]
    norm_num
  have hbp : 0 < (mkSuggestion [] 1 1 "apple").Profit := hPeq ▸ hap
  refine (suggest_best_crops_spec [] 1 1 ["mango", "apple"]).2.2.2 (by decide) _ _ hPeq ?_ ?_
  · exact List.Sublist.refl _
  · rw [suggest_best_crops_eq]
    have hab : profitGE (mkSuggestion [] 1 1 "mango") (mkSuggestion [] 1 1 "apple") = true :=
      decide_eq_true (le_of_eq hPeq.symm)
    have hms : ([mkSuggestion [] 1 1 "mango", mkSuggestion [] 1 1 "apple"]).mergeSort profitGE
        = [mkSuggestion [] 1 1 "mango", mkSuggestion [] 1 1 "apple"] :=
      List.mergeSort_of_sorted (List.pairwise_pair.mpr hab)
    show (mkSuggestion [] 1 1 "apple") ∈
      ((([mkSuggestion [] 1 1 "mango", mkSuggestion [] 1 1 "apple"]).mergeSort profitGE).filter
        (fun c => decide (0 < c.Profit))).take 3
    rw [hms]
    simp [List.filter_cons, decide_eq_true hap, decide_eq_true hbp]

/-- C10: within one suggestion invocation the fixed expense is the
same for every candidate (profit is revenue minus the one fixed
expense of the request), and when base yield times market price is
positive the profit order of two candidates coincides with the order
of their fixed yield factors. -/
theorem suggestion_profit_order (d : PyDict) (price By : ℚ) (c1 c2 : String)
    (h : 0 < By * price) :
    ((mkSuggestion d price By c1).Profit < (mkSuggestion d price By c2).Profit ↔
      cropFactor c1 < cropFactor c2) ∧
    ((mkSuggestion d price By c1).Profit = (mkSuggestion d price By c2).Profit ↔
      cropFactor c1 = cropFactor c2) ∧
    (∀ c : String, (mkSuggestion d price By c).Profit
      = (mkSuggestion d price By c).Yield * price - fixed_expense d) := by
  have key : ∀ c : String, (mkSuggestion d price By c).Profit
      = cropFactor c * (By * price) - fixed_expense d := by
    intro c
    simp only [mkSuggestion]
    ring
  refine ⟨?_, ?_, fun c => rfl⟩
  · rw [key c1, key c2, sub_lt_sub_iff_right]
    exact mul_lt_mul_right h
  · rw [key c1, key c2, sub_left_inj]
    constructor
    · intro heq
      exact mul_right_cancel₀ (ne_of_gt h) heq
    · intro hf
      rw [hf]

/-- Witness for suggestion_profit_order: at unit base yield and unit
price, sugarcane (factor 0.64) is ranked strictly below rice
(factor 0.78). -/
theorem suggestion_profit_order_witness :
    (mkSuggestion [] 1 1 "sugarcane").Profit < (mkSuggestion [] 1 1 "rice").Profit := by
  have h := suggestion_profit_order [] 1 1 "sugarcane" "rice" (by norm_num)
  refine h.1.mpr ?_
  have h1 : cropFactor "sugarcane" = 64 / 100 := rfl
  have h2 : cropFactor "rice" = 78 / 100 := rfl
  rw [h1, h2]
  norm_num

/-- At most one of the two clamped differences of a pair is nonzero. -/
theorem max_sub_mul_clamp (a b : ℚ) : max (a - b) 0 * max (b - a) 0 = 0 := by
  rcases le_total a b with h | h
  · have h1 : max (a - b) 0 = 0 := max_eq_right (by linarith)
    rw [h1, zero_mul]
  · have h2 : max (b - a) 0 = 0 := max_eq_right (by linarith)
    rw [h2, mul_zero]

/-- C9: every successful response carries a non-negative profit and a
non-negative loss, at most one of which is nonzero: profit and loss
are the clamped differences of revenue and expense in the two
directions. -/
theorem api_profit_loss (data0 : PyDict) (crop_raw : String) (ry re : ℚ)
    (cat : List String) (res : PredResult)
    (h : api_predict_all data0 crop_raw ry re cat = some res) :
    0 ≤ res.Profit ∧ 0 ≤ res.Loss ∧ res.Profit * res.Loss = 0 ∧
    res.Profit = max (res.Predicted_Revenue - res.Total_Expense) 0 ∧
    res.Loss = max (res.Total_Expense - res.Predicted_Revenue) 0 := by
  simp only [api_predict_all, Option.bind_eq_bind, Option.pure_def, Option.bind_eq_some] at h
  obtain ⟨X, hX, fail, hF, h⟩ := h
  cases fail
  · simp only [Bool.false_eq_true, if_false] at h
    simp only [Option.bind_eq_some, Option.some.injEq] at h
    obtain ⟨cf, hC, py, hY, pe, hE, pv, hP, hres⟩ := h
    subst hres
    exact ⟨le_max_right _ _, le_max_right _ _, max_sub_mul_clamp _ _, rfl, rfl⟩
  · simp only [eq_self_iff_true, if_true] at h
    simp only [Option.some_bind, Option.bind_eq_some, Option.some.injEq] at h
    obtain ⟨pe, hE, pv, hP, hres⟩ := h
    subst hres
    exact ⟨le_max_right _ _, le_max_right _ _, max_sub_mul_clamp _ _, rfl, rfl⟩

/-- C2: whenever the failure detector signals failure on a request
that the route answers successfully, the predicted crop is the
sentinel Crop Failure, the predicted yield is forced to exactly 1
(the yield-correction chain is bypassed), and the expense field is
exactly the expense correction applied to the raw expense prediction,
as in the non-failure case. -/
theorem api_failure_override (data0 : PyDict) (crop_raw : String) (ry re : ℚ)
    (cat : List String) (res : PredResult)
    (hres : api_predict_all data0 crop_raw ry re cat = some res)
    (hfail : check_crop_failure (normalize_costs data0) = some true) :
    res.Predicted_Crop = "Crop Failure" ∧ res.Predicted_Yield = 1 ∧
    apply_expense_correction re (normalize_costs data0) = some res.Total_Expense := by
  simp only [api_predict_all, Option.bind_eq_bind, Option.pure_def, Option.bind_eq_some] at hres
  obtain ⟨X, hX, fail, hF, h⟩ := hres
  rw [hfail] at hF
  have hft : fail = true := (Option.some_inj.mp hF).symm
  subst hft
  simp only [eq_self_iff_true, if_true] at h
  simp only [Option.some_bind, Option.bind_eq_some, Option.some.injEq] at h
  obtain ⟨pe, hE, pv, hP, hres2⟩ := h
  subst hres2
  exact ⟨rfl, rfl, hE⟩

/-- Witness for api_failure_override: a request with three nutrient
extremes (failure detected) that the route answers successfully. -/
theorem api_failure_override_witness :
    ∃ res : PredResult,
      api_predict_all
        [("N", .num 0), ("P", .num 0), ("K", .num 0), ("temperature", .num 25),
         ("humidity", .num 60), ("ph", .num 7), ("rainfall", .num 100),
         ("market_price", .num 10)] "rice" 100 100 ["rice"] = some res ∧
      res.Predicted_Crop = "Crop Failure" ∧ res.Predicted_Yield = 1 ∧
      apply_expense_correction 100
        (normalize_costs
          [("N", .num 0), ("P", .num 0), ("K", .num 0), ("temperature", .num 25),
           ("humidity", .num 60), ("ph", .num 7), ("rainfall", .num 100),
           ("market_price", .num 10)]) = some res.Total_Expense := by
  have hs : (api_predict_all
      [("N", .num 0), ("P", .num 0), ("K", .num 0), ("temperature", .num 25),
       ("humidity", .num 60), ("ph", .num 7), ("rainfall", .num 100),
       ("market_price", .num 10)] "rice" 100 100 ["rice"]).isSome = true := rfl
  obtain ⟨res, hres⟩ := Option.isSome_iff_exists.mp hs
  exact ⟨res, hres, api_failure_override _ "rice" 100 100 ["rice"] res hres rfl⟩

/-- Witness for api_profit_loss on the same concrete request. -/
theorem api_profit_loss_witness :
    ∃ res : PredResult,
      api_predict_all
        [("N", .num 0), ("P", .num 0), ("K", .num 0), ("temperature", .num 25),
         ("humidity", .num 60), ("ph", .num 7), ("rainfall", .num 100),
         ("market_price", .num 10)] "wheat" 50 80 ["wheat"] = some res ∧
      0 ≤ res.Profit ∧ 0 ≤ res.Loss ∧ res.Profit * res.Loss = 0 := by
  have hs : (api_predict_all
      [("N", .num 0), ("P", .num 0), ("K", .num 0), ("temperature", .num 25),
       ("humidity", .num 60), ("ph", .num 7), ("rainfall", .num 100),
       ("market_price", .num 10)] "wheat" 50 80 ["wheat"]).isSome = true := rfl
  obtain ⟨res, hres⟩ := Option.isSome_iff_exists.mp hs
  have h := api_profit_loss _ "wheat" 50 80 ["wheat"] res hres
  exact ⟨res, hres, h.1, h.2.1, h.2.2.1⟩

/-- C6 counterexample: a request mapping lacking the feature key N
makes the feature-row construction fail (KeyError through bracket
access) instead of substituting 0.0, and the whole route then answers
with an error. -/
theorem missing_feature_key_raises_cex :
    buildX [("P", .num 30), ("K", .num 30), ("temperature", .num 25),
            ("humidity", .num 60), ("ph", .num 7), ("rainfall", .num 100)] = none ∧
    api_predict_all
      [("P", .num 30), ("K", .num 30), ("temperature", .num 25),
       ("humidity", .num 60), ("ph", .num 7), ("rainfall", .num 100),
       ("market_price", .num 10)] "rice" 100 100 ["rice"] = none := by
  constructor <;> rfl

/-- C6 amended: when all seven feature keys are present, the feature
row is built from the float coercion of each value, and the coercion
itself never fails: None and unparsable strings coerce to 0, numbers
pass through. -/
theorem input_coercion_spec :
    (∀ vN vP vK vT vH vPh vR : PyVal,
      buildX [("N", vN), ("P", vP), ("K", vK), ("temperature", vT), ("humidity", vH),
              ("ph", vPh), ("rainfall", vR)]
        = some ⟨to_float vN, to_float vP, to_float vK, to_float vT, to_float vH,
                to_float vPh, to_float vR⟩) ∧
    to_float .pynone = 0 ∧
    (∀ q : ℚ, to_float (.num q) = q) ∧
    (∀ s : String, parseFloat s = none → to_float (.str s) = 0) := by
  refine ⟨fun vN vP vK vT vH vPh vR => rfl, rfl, fun q => rfl, fun s hs => ?_⟩
  simp [to_float, hs]

/-- Witness for input_coercion_spec: an unparsable string feature is
coerced to 0 rather than raising. -/
theorem input_coercion_spec_witness :
    to_float (.str "not a number") = 0 ∧
    buildX [("N", .str "not a number"), ("P", .num 30), ("K", .num 30),
            ("temperature", .num 25), ("humidity", .num 60), ("ph", .num 7),
            ("rainfall", .num 100)]
      = some ⟨0, 30, 30, 25, 60, 7, 100⟩ := by
  have h4 := input_coercion_spec.2.2.2 "not a number" rfl
  refine ⟨h4, ?_⟩
  have h1 := input_coercion_spec.1 (.str "not a number") (.num 30) (.num 30) (.num 25)
    (.num 60) (.num 7) (.num 100)
  rw [h1, h4]
  rfl

/-- C7 counterexample: when the short cost key is present with the
numeric value 0 (present and not empty), the route still uses the
verbose key's value 5, because the Python or operator treats 0 as
falsy. -/
theorem cost_short_key_zero_cex :
    pyGet (normalize_costs
      [("fertilizer", .num 0), ("Fertilizer_Usage_kg_per_hectare", .num 5)]) "fertilizer"
      = .num 5 ∧ (5 : ℚ) ≠ 0 := by
  constructor
  · rfl
  · norm_num

/-- C7 amended: the short cost key takes priority exactly when its
value is truthy (non-None, nonzero number, nonempty string); a falsy
short value falls back to the verbose key's value; with both keys
absent the coercion yields 0. -/
theorem cost_key_fallback (d : PyDict) (s v : String) :
    (truthy (pyGet d s) = true →
      to_float (pyOr (pyGet d s) (pyGet d v)) = to_float (pyGet d s)) ∧
    (truthy (pyGet d s) = false →
      to_float (pyOr (pyGet d s) (pyGet d v)) = to_float (pyGet d v)) ∧
    (pyLookup d s = none → pyLookup d v = none →
      to_float (pyOr (pyGet d s) (pyGet d v)) = 0) := by
  refine ⟨fun ht => ?_, fun hf => ?_, fun h1 h2 => ?_⟩
  · simp [pyOr, ht]
  · simp [pyOr, hf]
  · simp [pyOr, pyGet, h1, h2, truthy, to_float]

/-- Witness for cost_key_fallback: a truthy short-form value wins. -/
theorem cost_key_fallback_witness :
    to_float (pyOr (pyGet [("fertilizer", .str "7")] "fertilizer")
                   (pyGet [("fertilizer", .str "7")] "Fertilizer_Usage_kg_per_hectare"))
      = to_float (pyGet [("fertilizer", .str "7")] "fertilizer") :=
  (cost_key_fallback [("fertilizer", .str "7")] "fertilizer"
    "Fertilizer_Usage_kg_per_hectare").1 rfl

/-- C8 counterexample: with an empty catalog, a request whose features
are unexceptional (failure detector false) makes crop-name resolution
raise an IndexError, so the route answers with an error rather than
degrading. -/
theorem empty_catalog_request_fails_cex :
    api_predict_all
      [("N", .num 50), ("P", .num 50), ("K", .num 50), ("temperature", .num 25),
       ("humidity", .num 60), ("ph", .num 7), ("rainfall", .num 100),
       ("market_price", .num 10)] "rice" 100 100 [] = none := rfl

/-- C8 amended: with an empty catalog the suggestion ranker degrades
to the empty list and crop-name resolution always fails; a prediction
request completes without error only on the failure-detector path,
which skips resolution (shown on a concrete failing-features
request). -/
theorem empty_catalog_degradation :
    (∀ (d : PyDict) (p y : ℚ), suggest_best_crops d p y [] = []) ∧
    (∀ x : String, adjust_to_valid_crop x [] = none) ∧
    (api_predict_all
      [("N", .num 0), ("P", .num 0), ("K", .num 0), ("temperature", .num 25),
       ("humidity", .num 60), ("ph", .num 7), ("rainfall", .num 100),
       ("market_price", .num 10)] "rice" 100 100 []).isSome = true := by
  refine ⟨fun d p y => ?_, fun x => rfl, rfl⟩
  simp [suggest_best_crops]
